import Mathlib

/-!
Verification of the BLEProxy firmware core (`src/main/main.c`).

The source is a single C file with three radio-stack callbacks
(`gap_event_handler`, `gattc_event_handler`, `gatts_event_handler`),
a handful of globals (`gattc_if_global`, `gattc_conn_id_global`,
`connected`) and a pure serialization routine (`prepare_service_data`).
We embed the handlers shallowly: each handler becomes a pure function
from the relevant global state and the delivered event to the updated
state together with the list of radio calls and log statements it
performs (the `Action` trace).  Machine integers are modelled as `Nat`;
the status and length constants keep their ESP-IDF values.
-/

namespace BLEProxy

/-- ESP-IDF success status `ESP_GATT_OK` (value 0). -/
def ESP_GATT_OK : Nat := 0

/-- ESP-IDF `ESP_UUID_LEN_16`: byte length of a 16-bit UUID (value 2). -/
def ESP_UUID_LEN_16 : Nat := 2

/-- ESP-IDF `BLE_ADDR_TYPE_PUBLIC` (value 0). -/
def BLE_ADDR_TYPE_PUBLIC : Nat := 0

/-- `LOCAL_DEVICE_NAME` from main.c line 17. -/
def LOCAL_DEVICE_NAME : String := "TIAGO-U105"

/-- `target_bda` (main.c line 20): fixed link-layer address of the target. -/
def target_bda : List Nat := [0xFE, 0x98, 0x00, 0x30, 0x39, 0x45]

/-- `service_data_uuid` (main.c line 29): 16-bit UUID tag for service data. -/
def service_data_uuid : Nat := 0xC1C5

/-- `service_data_payload` (main.c line 32): the 20 captured payload bytes. -/
def service_data_payload : List Nat :=
  [0xFE, 0x98, 0x00, 0x30, 0x39, 0x44, 0xE4, 0x0C, 0x7F, 0x08,
   0x1D, 0x04, 0x00, 0x00, 0x04, 0x46, 0x60, 0x09, 0x00, 0x0A]

/-- `prepare_service_data` (main.c lines 37-41): fills the `service_data`
buffer with the low byte of the 16-bit UUID, then the high byte, then a
verbatim copy of the payload.  We return the buffer contents. -/
def prepare_service_data : List Nat :=
  (service_data_uuid &&& 0xFF) ::
  ((service_data_uuid >>> 8) &&& 0xFF) ::
  service_data_payload

/-- One fetched characteristic entry (`esp_gattc_char_elem_t` fields the
code reads: `uuid.uuid.uuid16` and `char_handle`). -/
structure CharElem where
  uuid16 : Nat
  char_handle : Nat
deriving DecidableEq

/-- Environment for the synchronous calls inside the search-complete
branch (main.c lines 134-159): the count written back by
`esp_ble_gattc_get_attr_count`, whether `malloc` succeeds, and the entry
list written back by `esp_ble_gattc_get_all_char` (whose length is the
count that call reports back). -/
structure CharEnumEnv where
  attrCount : Nat
  allocOk : Bool
  fetched : List CharElem
deriving DecidableEq

/-- Observable actions of the handlers: outgoing radio-stack calls and
log statements, with the data they carry. -/
inductive Action where
  | startAdvertising
  | configAdvData
  | setDeviceName (name : String)
  | prepareServiceData
  | gattcOpen (gif : Nat) (bda : List Nat) (addrType : Nat) (isDirect : Bool)
  | searchService (gif : Nat) (connId : Nat) (filter : Option (List Nat))
  | getAttrCount (gif : Nat) (connId : Nat)
  | getAllChar (gif : Nat) (connId : Nat)
  | logAdvDataSetComplete
  | logAdvStarted
  | logScanResult
  | logGattcRegistered
  | logGattcConnected
  | logOpenFailed (status : Nat)
  | logServiceFound (uuid16 : Nat)
  | logSearchComplete
  | logChar (uuid16 : Nat) (handle : Nat)
  | logNotify (value : List Nat)
  | logGattsRegistered
  | logGattsConnected
  | logGattsDisconnected
deriving DecidableEq

/-- The client-role globals of main.c lines 75-77. -/
structure GattcState where
  gattc_if_global : Nat
  gattc_conn_id_global : Nat
  connected : Bool
deriving DecidableEq

/-- Initial values of the globals (`0`, `0`, `false`). -/
def initGattc : GattcState := ⟨0, 0, false⟩

/-- Fields of `param->search_res` that the radio stack delivers
(main.c reads only the UUID length and the 16-bit UUID value). -/
structure SearchResParam where
  connId : Nat
  startHandle : Nat
  endHandle : Nat
  uuidLen : Nat
  uuid16 : Nat
deriving DecidableEq

/-- GATTC callback events.  `disconnectEvt` and `otherEvt` reach the
`default:` branch of the switch in main.c, which does nothing. -/
inductive GattcEvent where
  | regEvt
  | openEvt (status : Nat) (connId : Nat)
  | searchResEvt (p : SearchResParam)
  | searchCmplEvt (connId : Nat) (status : Nat)
  | notifyEvt (value : List Nat)
  | disconnectEvt (connId : Nat) (reason : Nat)
  | otherEvt
deriving DecidableEq

/-- The characteristic-enumeration block of `ESP_GATTC_SEARCH_CMPL_EVT`
(main.c lines 137-158): query the attribute count; if it is positive,
allocate a buffer; if allocation succeeds, fetch all characteristics and
log one line per entry actually written back by the fetch. -/
def enumerateCharacteristics (gif connId : Nat) (env : CharEnumEnv) :
    List Action :=
  Action.getAttrCount gif connId ::
    (if 0 < env.attrCount then
      (if env.allocOk then
        Action.getAllChar gif connId ::
          env.fetched.map (fun c => Action.logChar c.uuid16 c.char_handle)
      else [])
    else [])

/-- `gattc_event_handler` (main.c lines 100-170).  The callback receives
the interface `gattc_if` on every invocation; the state argument holds
the globals.  Returns the updated globals and the action trace. -/
def gattc_event_handler (env : CharEnumEnv) (s : GattcState)
    (gattc_if : Nat) (e : GattcEvent) : GattcState × List Action :=
  match e with
  | .regEvt =>
      let s' := { s with gattc_if_global := gattc_if }
      (s', [Action.logGattcRegistered,
            Action.gattcOpen s'.gattc_if_global target_bda
              BLE_ADDR_TYPE_PUBLIC true])
  | .openEvt status connId =>
      if status = ESP_GATT_OK then
        ({ s with gattc_conn_id_global := connId, connected := true },
         [Action.logGattcConnected,
          Action.searchService gattc_if connId none])
      else
        (s, [Action.logOpenFailed status])
  | .searchResEvt p =>
      (s, if p.uuidLen = ESP_UUID_LEN_16
          then [Action.logServiceFound p.uuid16] else [])
  | .searchCmplEvt _ _ =>
      (s, Action.logSearchComplete ::
          enumerateCharacteristics gattc_if s.gattc_conn_id_global env)
  | .notifyEvt value =>
      (s, [Action.logNotify value])
  | .disconnectEvt _ _ =>
      (s, [])
  | .otherEvt =>
      (s, [])

/-- Run the client-role handler over a sequence of callback invocations
(each carrying the `gattc_if` argument and the event), returning the
final globals. -/
def runGattc (env : CharEnumEnv) : GattcState → List (Nat × GattcEvent) →
    GattcState
  | s, [] => s
  | s, c :: rest =>
      runGattc env (gattc_event_handler env s c.1 c.2).1 rest

/-- Action trace of a sequence of client-role callback invocations, in
delivery order. -/
def gattcTrace (env : CharEnumEnv) : GattcState → List (Nat × GattcEvent) →
    List Action
  | _, [] => []
  | s, c :: rest =>
      (gattc_event_handler env s c.1 c.2).2 ++
        gattcTrace env (gattc_event_handler env s c.1 c.2).1 rest

/-- GAP callback events (main.c lines 80-97). -/
inductive GapEvent where
  | advDataSetComplete
  | advStartComplete
  | scanResult
  | otherEvt
deriving DecidableEq

/-- `gap_event_handler` (main.c lines 80-97): stateless, emits only
calls and logs. -/
def gap_event_handler (e : GapEvent) : List Action :=
  match e with
  | .advDataSetComplete =>
      [Action.logAdvDataSetComplete, Action.prepareServiceData,
       Action.startAdvertising]
  | .advStartComplete => [Action.logAdvStarted]
  | .scanResult => [Action.logScanResult]
  | .otherEvt => []

/-- Action trace of a sequence of GAP events. -/
def gapTrace : List GapEvent → List Action
  | [] => []
  | e :: rest => gap_event_handler e ++ gapTrace rest

/-- GATTS callback events (main.c lines 173-207). -/
inductive GattsEvent where
  | regEvt
  | connectEvt (connId : Nat)
  | disconnectEvt (connId : Nat)
  | otherEvt
deriving DecidableEq

/-- `gatts_event_handler` (main.c lines 173-207).  The handler shares
the process globals with the client role, so it takes and returns the
client-role state; its active code never touches those globals (the
auto-connect block at lines 193-197 is commented out) and never opens a
connection.  The error-log branch after `esp_ble_gap_config_adv_data`
depends only on that call's immediate return and is folded into the
single `configAdvData` action. -/
def gatts_event_handler (s : GattcState) (e : GattsEvent) :
    GattcState × List Action :=
  match e with
  | .regEvt =>
      (s, [Action.logGattsRegistered,
           Action.setDeviceName LOCAL_DEVICE_NAME,
           Action.prepareServiceData,
           Action.configAdvData])
  | .connectEvt _ => (s, [Action.logGattsConnected])
  | .disconnectEvt _ => (s, [Action.logGattsDisconnected])
  | .otherEvt => (s, [])

/-- A fixed small environment used to evaluate concrete runs. -/
def env0 : CharEnumEnv := ⟨0, true, []⟩

/-- Does this callback invocation deliver a successful open event? -/
def isSuccessfulOpen : Nat × GattcEvent → Bool
  | (_, .openEvt status _) => status == ESP_GATT_OK
  | _ => false

/-- Number of `startAdvertising` calls in an action trace. -/
def countStart : List Action → Nat
  | [] => 0
  | a :: rest => (if a = Action.startAdvertising then 1 else 0) + countStart rest

/-- Number of advertising-data-set-complete events in a GAP event
sequence. -/
def countDataSetComplete : List GapEvent → Nat
  | [] => 0
  | e :: rest =>
      (if e = GapEvent.advDataSetComplete then 1 else 0) +
        countDataSetComplete rest

/-- Number of per-characteristic log lines in an action trace. -/
def countLogChar : List Action → Nat
  | [] => 0
  | a :: rest =>
      (match a with | Action.logChar _ _ => 1 | _ => 0) + countLogChar rest

/-- Connection id carried by the last successful open event of the
sequence, threading an accumulator for the part already consumed. -/
def lastOpenAux : Option Nat → List (Nat × GattcEvent) → Option Nat
  | a, [] => a
  | a, c :: rest =>
      lastOpenAux
        (match c.2 with
         | .openEvt status connId =>
             if status = ESP_GATT_OK then some connId else a
         | _ => a) rest

/-- Connection id carried by the most recent successful open event of an
event sequence, if any. -/
def lastSuccessfulOpenConnId (evs : List (Nat × GattcEvent)) : Option Nat :=
  lastOpenAux none evs

theorem countStart_append (l1 l2 : List Action) :
    countStart (l1 ++ l2) = countStart l1 + countStart l2 := by
  induction l1 with
  | nil => simp [countStart]
  | cons a rest ih => simp [countStart, ih, Nat.add_assoc]

theorem countStart_cons (a : Action) (l : List Action) :
    countStart (a :: l)
      = (if a = Action.startAdvertising then 1 else 0) + countStart l := rfl

theorem countStart_map_logChar (l : List CharElem) :
    countStart (l.map fun c => Action.logChar c.uuid16 c.char_handle) = 0 := by
  induction l with
  | nil => rfl
  | cons c rest ih => simp [countStart, ih]

theorem countStart_enumerate (gif connId : Nat) (env : CharEnumEnv) :
    countStart (enumerateCharacteristics gif connId env) = 0 := by
  by_cases h1 : 0 < env.attrCount
  · by_cases h2 : env.allocOk
    · simp [enumerateCharacteristics, h1, h2, countStart, countStart_map_logChar]
    · simp [enumerateCharacteristics, h1, h2, countStart]
  · simp [enumerateCharacteristics, h1, countStart]

theorem countLogChar_map (l : List CharElem) :
    countLogChar (l.map fun c => Action.logChar c.uuid16 c.char_handle)
      = l.length := by
  induction l with
  | nil => rfl
  | cons c rest ih => simp [countLogChar, ih, Nat.add_comm]

theorem runGattc_connected_eq (env : CharEnumEnv)
    (evs : List (Nat × GattcEvent)) :
    ∀ s : GattcState,
      (runGattc env s evs).connected
        = (s.connected || evs.any isSuccessfulOpen) := by
  induction evs with
  | nil => intro s; simp [runGattc]
  | cons c rest ih =>
      intro s
      obtain ⟨gif, e⟩ := c
      have h1 : runGattc env s ((gif, e) :: rest)
          = runGattc env (gattc_event_handler env s gif e).1 rest := rfl
      rw [h1, ih]
      cases e with
      | regEvt => simp [gattc_event_handler, isSuccessfulOpen]
      | openEvt status connId =>
          by_cases h : status = ESP_GATT_OK
          · have h' : status = 0 := h
            simp [gattc_event_handler, isSuccessfulOpen, ESP_GATT_OK, h']
          · have h' : ¬status = 0 := h
            have hb : (status == 0) = false := by
              simpa using h'
            simp [gattc_event_handler, isSuccessfulOpen, ESP_GATT_OK, h', hb]
      | searchResEvt p => simp [gattc_event_handler, isSuccessfulOpen]
      | searchCmplEvt a b => simp [gattc_event_handler, isSuccessfulOpen]
      | notifyEvt v => simp [gattc_event_handler, isSuccessfulOpen]
      | disconnectEvt a b => simp [gattc_event_handler, isSuccessfulOpen]
      | otherEvt => simp [gattc_event_handler, isSuccessfulOpen]

theorem lastOpen_of_connected (env : CharEnumEnv)
    (evs : List (Nat × GattcEvent)) :
    ∀ (s : GattcState) (a : Option Nat),
      (s.connected = true → a = some s.gattc_conn_id_global) →
      (runGattc env s evs).connected = true →
      lastOpenAux a evs = some (runGattc env s evs).gattc_conn_id_global := by
  induction evs with
  | nil =>
      intro s a h hc
      simpa [runGattc, lastOpenAux] using h hc
  | cons c rest ih =>
      intro s a h
      obtain ⟨gif, e⟩ := c
      cases e with
      | regEvt => exact ih _ _ h
      | openEvt status connId =>
          by_cases hst : status = ESP_GATT_OK
          · have hred : runGattc env s ((gif, GattcEvent.openEvt status connId) :: rest)
                = runGattc env
                    { s with gattc_conn_id_global := connId, connected := true }
                    rest := by
              simp [runGattc, gattc_event_handler, hst]
            have hacc : lastOpenAux a
                  ((gif, GattcEvent.openEvt status connId) :: rest)
                = lastOpenAux (some connId) rest := by
              simp [lastOpenAux, hst]
            rw [hred, hacc]
            exact ih _ _ (fun _ => rfl)
          · have hred : runGattc env s ((gif, GattcEvent.openEvt status connId) :: rest)
                = runGattc env s rest := by
              simp [runGattc, gattc_event_handler, hst]
            have hacc : lastOpenAux a
                  ((gif, GattcEvent.openEvt status connId) :: rest)
                = lastOpenAux a rest := by
              simp [lastOpenAux, hst]
            rw [hred, hacc]
            exact ih _ _ h
      | searchResEvt p => exact ih _ _ h
      | searchCmplEvt x y => exact ih _ _ h
      | notifyEvt v => exact ih _ _ h
      | disconnectEvt x y => exact ih _ _ h
      | otherEvt => exact ih _ _ h

/-- C1 counterexample: the claim says `connected` is set false on every
disconnect event, but `gattc_event_handler` has no disconnect case (the
`default:` branch does nothing), so after a successful open followed by
a disconnect the flag is still true. -/
theorem c1_counterexample :
    (runGattc env0 initGattc
        [(1, GattcEvent.openEvt 0 5),
         (1, GattcEvent.disconnectEvt 5 0)]).connected = true := by
  decide

/-- C1 (amended): `connected` is set true exactly on a successful open
event and is never set back to false; for every client-role event
sequence from the initial state, `connected` is true iff the sequence
contains a successful open.  In particular a disconnect event is a
no-op (state unchanged, no action) and a failed open leaves the flag
untouched. -/
theorem c1_amended_connected_flag (env : CharEnumEnv)
    (evs : List (Nat × GattcEvent)) :
    (runGattc env initGattc evs).connected = evs.any isSuccessfulOpen
    ∧ ∀ (s : GattcState) (gif connId reason : Nat),
        gattc_event_handler env s gif
          (GattcEvent.disconnectEvt connId reason) = (s, []) := by
  constructor
  · have h := runGattc_connected_eq env evs initGattc
    simpa [initGattc] using h
  · intro s gif connId reason
    rfl

/-- C2 counterexample: after a disconnect delivered mid-discovery, a
late-arriving search-complete event for the stale connection is NOT
ignored — the handler still issues the attribute-count query (using the
stale stored connection id 5), performing no `connected` or handle
check. -/
theorem c2_counterexample :
    Action.getAttrCount 1 5 ∈
      (gattc_event_handler env0
        (runGattc env0 initGattc
          [(1, GattcEvent.openEvt 0 5), (1, GattcEvent.disconnectEvt 5 0)])
        1 (GattcEvent.searchCmplEvt 5 0)).2 := by
  decide

/-- C2 (amended): discovery-related events are never ignored.  The
handler's actions on service-found and search-complete events are
identical whether `connected` is true or false, do not depend on the
connection id carried by the event (no handle-mismatch check), and the
events leave the state unchanged; no attribute table exists to be
emptied or marked incomplete. -/
theorem c2_amended_discovery_unchecked (env : CharEnumEnv)
    (s : GattcState) (gif : Nat) (p : SearchResParam)
    (connId status connId' : Nat) :
    ((gattc_event_handler env s gif (GattcEvent.searchResEvt p)).2
      = (gattc_event_handler env { s with connected := false } gif
          (GattcEvent.searchResEvt p)).2)
    ∧ ((gattc_event_handler env s gif
          (GattcEvent.searchCmplEvt connId status)).2
      = (gattc_event_handler env { s with connected := false } gif
          (GattcEvent.searchCmplEvt connId status)).2)
    ∧ ((gattc_event_handler env s gif
          (GattcEvent.searchCmplEvt connId status)).2
      = (gattc_event_handler env s gif
          (GattcEvent.searchCmplEvt connId' status)).2)
    ∧ (gattc_event_handler env s gif (GattcEvent.searchResEvt p)).1 = s
    ∧ (gattc_event_handler env s gif
        (GattcEvent.searchCmplEvt connId status)).1 = s :=
  ⟨rfl, rfl, rfl, rfl, rfl⟩

/-- C3 counterexample: a service-found event whose UUID is not 16-bit
(here a 128-bit UUID, length 16 bytes) appends nothing anywhere — the
handler emits no action and changes no state — refuting the claim that
every service-found event appends a `(uuid, attributeHandleRange)`
tuple to a Discovered Attribute Table. -/
theorem c3_counterexample :
    gattc_event_handler env0 initGattc 1
      (GattcEvent.searchResEvt ⟨5, 1, 10, 16, 0⟩) = (initGattc, []) := by
  decide

/-- C3 (amended): the code maintains no attribute table; a service-found
event merely logs the service when, and only when, its UUID is 16-bit,
recording just the 16-bit UUID value (no attribute handle range), in
the order the events are delivered; the events leave the state
unchanged. -/
theorem c3_amended_service_found_log (env : CharEnumEnv) (s : GattcState)
    (rs : List (Nat × SearchResParam)) :
    gattcTrace env s (rs.map fun r => (r.1, GattcEvent.searchResEvt r.2))
      = rs.filterMap (fun r =>
          if r.2.uuidLen = ESP_UUID_LEN_16
          then some (Action.logServiceFound r.2.uuid16) else none)
    ∧ runGattc env s (rs.map fun r => (r.1, GattcEvent.searchResEvt r.2))
        = s := by
  induction rs with
  | nil => exact ⟨rfl, rfl⟩
  | cons r rest ih =>
      refine ⟨?_, ih.2⟩
      by_cases h : r.2.uuidLen = ESP_UUID_LEN_16
      · simp [gattcTrace, gattc_event_handler, h, ih.1, List.filterMap_cons]
      · simp [gattcTrace, gattc_event_handler, h, ih.1, List.filterMap_cons]

/-- C4 counterexample: a failed open does not clear anything, so after a
successful open (conn id 5) followed by an open event with status 0x85,
`connected` is still true and the stale non-zero connection handle 5 is
still stored — refuting "ends in Disconnected with connected = false
and no stale non-zero connection handle" for every failed open. -/
theorem c4_counterexample :
    (runGattc env0 initGattc
        [(1, GattcEvent.openEvt 0 5),
         (1, GattcEvent.openEvt 133 6)]).connected = true
    ∧ (runGattc env0 initGattc
        [(1, GattcEvent.openEvt 0 5),
         (1, GattcEvent.openEvt 133 6)]).gattc_conn_id_global = 5 := by
  decide

/-- C4 (amended): an open event with a non-OK status leaves the client
state exactly as it was, issues no service search and no retry, and
emits exactly one failure report carrying the received status code;
consequently, from the initial state a failed open leaves the role with
`connected = false` and connection handle 0. -/
theorem c4_amended_failed_open (env : CharEnumEnv) (s : GattcState)
    (gif status connId : Nat) (h : status ≠ ESP_GATT_OK) :
    gattc_event_handler env s gif (GattcEvent.openEvt status connId)
      = (s, [Action.logOpenFailed status])
    ∧ runGattc env initGattc [(gif, GattcEvent.openEvt status connId)]
        = initGattc := by
  constructor
  · simp [gattc_event_handler, h]
  · simp [runGattc, gattc_event_handler, h]

/-- C4 witness: instantiation at status 0x85 (decimal 133) from the
initial state. -/
theorem c4_failed_open_witness :
    gattc_event_handler env0 initGattc 1 (GattcEvent.openEvt 133 6)
      = (initGattc, [Action.logOpenFailed 133])
    ∧ runGattc env0 initGattc [(1, GattcEvent.openEvt 133 6)]
        = initGattc :=
  c4_amended_failed_open env0 initGattc 1 133 6 (by decide)

/-- C5: on registration-complete the handler stores the interface and,
in the same invocation, opens a connection to the fixed target address
(no manual trigger); on an open event with status OK it records the
connection id, sets `connected` true and, in the same invocation,
issues a service search with the null (all-services) filter. -/
theorem c5_register_open_search (env : CharEnumEnv) (s : GattcState)
    (gif connId : Nat) :
    gattc_event_handler env s gif GattcEvent.regEvt
      = ({ s with gattc_if_global := gif },
         [Action.logGattcRegistered,
          Action.gattcOpen gif target_bda BLE_ADDR_TYPE_PUBLIC true])
    ∧ gattc_event_handler env s gif (GattcEvent.openEvt ESP_GATT_OK connId)
      = ({ s with gattc_conn_id_global := connId, connected := true },
         [Action.logGattcConnected,
          Action.searchService gif connId none]) := by
  refine ⟨rfl, ?_⟩
  simp [gattc_event_handler]

/-- C6 counterexample: re-delivering the same advertising-data-set
completion event produces a second `startAdvertising` call — the GAP
handler has no guard, refuting "at most once per successful
DataSubmitted transition, with no duplicate start on spurious
re-delivery". -/
theorem c6_counterexample :
    countStart (gapTrace
        [GapEvent.advDataSetComplete, GapEvent.advDataSetComplete]) = 2 := by
  decide

/-- C6 (amended): `startAdvertising` is called exactly once per
DELIVERED data-set-complete event — hence never before the first such
acknowledgment — but there is no re-delivery guard, so each re-delivered
completion event triggers another start.  No other handler ever calls
`startAdvertising`. -/
theorem c6_amended_start_per_completion :
    (∀ evs : List GapEvent,
      countStart (gapTrace evs) = countDataSetComplete evs)
    ∧ (∀ (s : GattcState) (e : GattsEvent),
        countStart (gatts_event_handler s e).2 = 0)
    ∧ (∀ (env : CharEnumEnv) (s : GattcState) (gif : Nat) (e : GattcEvent),
        countStart (gattc_event_handler env s gif e).2 = 0) := by
  refine ⟨?_, ?_, ?_⟩
  · intro evs
    induction evs with
    | nil => rfl
    | cons e rest ih =>
        cases e <;>
          simp [gapTrace, countStart_append, gap_event_handler,
            countStart, countDataSetComplete, ih]
  · intro s e
    cases e <;> rfl
  · intro env s gif e
    cases e with
    | regEvt => rfl
    | openEvt status connId =>
        by_cases h : status = ESP_GATT_OK <;>
          simp [gattc_event_handler, h, countStart]
    | searchResEvt p =>
        by_cases h : p.uuidLen = ESP_UUID_LEN_16 <;>
          simp [gattc_event_handler, h, countStart]
    | searchCmplEvt a b =>
        have hshape : (gattc_event_handler env s gif
              (GattcEvent.searchCmplEvt a b)).2
            = Action.logSearchComplete ::
                enumerateCharacteristics gif s.gattc_conn_id_global env := rfl
        rw [hshape, countStart_cons, countStart_enumerate]
        rfl
    | notifyEvt v => simp [gattc_event_handler, countStart]
    | disconnectEvt a b => rfl
    | otherEvt => rfl

/-- C7: in the search-complete characteristic enumeration, a zero
attribute count or a failed allocation abandons the operation after the
count query — no fetch call, no characteristic entries, and the handler
returns normally; when the fetch does run, the number of entries
processed equals the count the fetch call reports back (the length of
what it wrote), not the original estimate. -/
theorem c7_char_enumeration_defenses (gif connId : Nat)
    (env : CharEnumEnv) :
    ((env.attrCount = 0 ∨ env.allocOk = false) →
      enumerateCharacteristics gif connId env
        = [Action.getAttrCount gif connId])
    ∧ (0 < env.attrCount → env.allocOk = true →
      countLogChar (enumerateCharacteristics gif connId env)
          = env.fetched.length
      ∧ Action.getAllChar gif connId ∈
          enumerateCharacteristics gif connId env) := by
  constructor
  · rintro (h | h)
    · simp [enumerateCharacteristics, h]
    · by_cases h1 : 0 < env.attrCount
      · simp [enumerateCharacteristics, h1, h]
      · simp [enumerateCharacteristics, h1]
  · intro h1 h2
    constructor
    · simp [enumerateCharacteristics, h1, h2, countLogChar, countLogChar_map]
    · simp [enumerateCharacteristics, h1, h2]

/-- C7 witness: with count 0 (or failed allocation) only the count query
happens; with count estimate 3 but a fetch that reports back a single
entry, exactly one characteristic is processed. -/
theorem c7_char_enumeration_witness :
    enumerateCharacteristics 1 5 ⟨0, true, []⟩ = [Action.getAttrCount 1 5]
    ∧ enumerateCharacteristics 1 5 ⟨3, false, [⟨0x2A1C, 42⟩]⟩
        = [Action.getAttrCount 1 5]
    ∧ countLogChar (enumerateCharacteristics 1 5 ⟨3, true, [⟨0x2A1C, 42⟩]⟩)
        = 1 :=
  ⟨(c7_char_enumeration_defenses 1 5 ⟨0, true, []⟩).1 (Or.inl rfl),
   (c7_char_enumeration_defenses 1 5 ⟨3, false, [⟨0x2A1C, 42⟩]⟩).1
     (Or.inr rfl),
   ((c7_char_enumeration_defenses 1 5 ⟨3, true, [⟨0x2A1C, 42⟩]⟩).2
     (by decide) rfl).1⟩

/-- C8: the assembled service-data record is the 16-bit UUID 0xC1C5 in
little-endian order (bytes C5 C1) followed by the 20 captured payload
bytes copied verbatim, 22 bytes in total. -/
theorem c8_service_data_record :
    prepare_service_data = [0xC5, 0xC1] ++ service_data_payload
    ∧ prepare_service_data.length = 22
    ∧ service_data_payload.length = 20 := by
  decide

/-- C9: server-role connect and disconnect events only log; they leave
the client-role state (interface handle, connection handle, connected
flag) unchanged and issue no open request or any other radio call. -/
theorem c9_server_events_frame (s : GattcState) (connId : Nat) :
    gatts_event_handler s (GattsEvent.connectEvt connId)
      = (s, [Action.logGattsConnected])
    ∧ gatts_event_handler s (GattsEvent.disconnectEvt connId)
      = (s, [Action.logGattsDisconnected]) :=
  ⟨rfl, rfl⟩

/-- C10: the successful-open handler updates the stored connection id
and the connected flag together, in one step, to the conn id carried by
that open event; consequently, for every event sequence from the
initial state, `connected = true` implies the stored connection id is
the one carried by the most recent successful open event. -/
theorem c10_conn_id_coupled (env : CharEnumEnv)
    (evs : List (Nat × GattcEvent)) :
    (∀ (s : GattcState) (gif connId : Nat),
      (gattc_event_handler env s gif
          (GattcEvent.openEvt ESP_GATT_OK connId)).1
        = { s with gattc_conn_id_global := connId, connected := true })
    ∧ ((runGattc env initGattc evs).connected = true →
        lastSuccessfulOpenConnId evs
          = some (runGattc env initGattc evs).gattc_conn_id_global) := by
  constructor
  · intro s gif connId
    simp [gattc_event_handler]
  · intro hc
    exact lastOpen_of_connected env evs initGattc none
      (fun h => absurd h (by decide)) hc

/-- C10 witness: a single successful open with conn id 5. -/
theorem c10_conn_id_witness :
    lastSuccessfulOpenConnId [(1, GattcEvent.openEvt 0 5)]
      = some (runGattc env0 initGattc
          [(1, GattcEvent.openEvt 0 5)]).gattc_conn_id_global :=
  (c10_conn_id_coupled env0 [(1, GattcEvent.openEvt 0 5)]).2 (by decide)

end BLEProxy
